import Mathlib

/-!
Shallow embedding of the `wrapnum` Rust crate (`src/lib.rs`).

The underlying generic integer type `T` is modelled as `Int` (the crate
instantiates `T` at both unsigned and signed machine integers; `Int` covers
the signed behaviour, and on non-negative operands the unsigned behaviour
coincides).  Rust's `%` operator on signed integers is the truncating
remainder, modelled by `Int.tmod`; a remainder by zero is a runtime fault
(panic), modelled by `Option.none`, so every operation that calls the wrap
normalisation returns an `Option`.  Constructors that may panic on a range
check likewise return an `Option`.
-/

namespace WrapnumModel

/-- The `WrapNum<T>` struct: current value with inclusive bounds. -/
structure WrapNum where
  value : Int
  min : Int
  max : Int
deriving DecidableEq, Repr

/-- Rust's `%` on a signed integer type: truncating remainder, faulting
(panicking) when the divisor is zero. -/
def rustRem (a b : Int) : Option Int :=
  if b = 0 then none else some (Int.tmod a b)

/-- `WrapNum::wrapped_result`: `let range = max - min; (value - min) % range + min`. -/
def wrapped_result (value mn mx : Int) : Option Int :=
  (rustRem (value - mn) (mx - mn)).map (fun r => r + mn)

/-- `impl Add for WrapNum<T>` (WrapNum + WrapNum). -/
def addW (a b : WrapNum) : Option WrapNum :=
  (wrapped_result (a.value + b.value) a.min a.max).map
    (fun v => { value := v, min := a.min, max := a.max })

/-- `impl Add<T> for WrapNum<T>` (WrapNum + scalar). -/
def addScalar (a : WrapNum) (rhs : Int) : Option WrapNum :=
  (wrapped_result (a.value + rhs) a.min a.max).map
    (fun v => { value := v, min := a.min, max := a.max })

/-- `impl Sub for WrapNum<T>` (WrapNum - WrapNum). -/
def subW (a b : WrapNum) : Option WrapNum :=
  let result :=
    if a.value < b.value then a.max - a.min + (a.value - b.value)
    else a.value - b.value
  (wrapped_result result a.min a.max).map
    (fun v => { value := v, min := a.min, max := a.max })

/-- `impl Sub<T> for WrapNum<T>` (WrapNum - scalar). -/
def subScalar (a : WrapNum) (rhs : Int) : Option WrapNum :=
  let result :=
    if a.value < rhs then a.max - a.min + (a.value - rhs)
    else a.value - rhs
  (wrapped_result result a.min a.max).map
    (fun v => { value := v, min := a.min, max := a.max })

/-- `impl AddAssign<T> for WrapNum<T>`: mutates only `value`. -/
def add_assign (a : WrapNum) (rhs : Int) : Option WrapNum :=
  (wrapped_result (a.value + rhs) a.min a.max).map
    (fun v => { a with value := v })

/-- `impl SubAssign<T> for WrapNum<T>`: mutates only `value`. -/
def sub_assign (a : WrapNum) (rhs : Int) : Option WrapNum :=
  let result :=
    if a.value < rhs then a.max - a.min + (a.value - rhs)
    else a.value - rhs
  (wrapped_result result a.min a.max).map
    (fun v => { a with value := v })

/-- `WrapNum::new(max)`: value and min zeroed from `Default`, given max.
No range check, total. -/
def new (mx : Int) : WrapNum :=
  { value := 0, min := 0, max := mx }

/-- `WrapNum::new_max(value, max)`: asserts `!(value > max)` (panic modelled
as `none`), min zeroed from `Default`. -/
def new_max (value mx : Int) : Option WrapNum :=
  if value > mx then none
  else some { value := value, min := 0, max := mx }

/-- `WrapNum::new_min_max(value, min, max)`: panics if `value > max` or
`value < min`. -/
def new_min_max (value mn mx : Int) : Option WrapNum :=
  if value > mx then none
  else if value < mn then none
  else some { value := value, min := mn, max := mx }

/-- `impl PartialEq for WrapNum<T>`: compares only `value`. -/
def wrapEq (a b : WrapNum) : Bool :=
  a.value == b.value

/-- `WrapNum::total_eq`: compares `value`, `min` and `max`. -/
def total_eq (a b : WrapNum) : Bool :=
  a.value == b.value && a.min == b.min && a.max == b.max

/-- `impl From<T> for WrapNum<T>`: min = zero, max = `T::max_value()`
(parameterised here by the type's maximum representable value). -/
def fromBare (maxValue : Int) (value : Int) : WrapNum :=
  { value := value, min := 0, max := maxValue }

/-- `impl_from_wrapnum!`: `From<WrapNum<T>> for T` extracts `value`. -/
def intoBare (w : WrapNum) : Int :=
  w.value

/-- `ToPrimitive::to_usize`: succeeds exactly on non-negative values
(unbounded model of `usize`); failure is the `expect` panic. -/
def toUsizeOpt (v : Int) : Option Nat :=
  if 0 ≤ v then some v.toNat else none

/-- `impl Index<WrapNum<U>> for Vec<T>`: convert `value` to `usize`
(panic on failure), then index (panic out of bounds modelled by `none`). -/
def indexWrap (xs : List Int) (w : WrapNum) : Option Int :=
  (toUsizeOpt w.value).bind (fun i => xs.get? i)

/-- The spec's description of subtraction, assembled from its words: the
pre-compensated intermediate, then the wrap normalisation, result carrying
the left operand's bounds. -/
def specSubStep (a : WrapNum) (bval : Int) : Option WrapNum :=
  let intermediate :=
    if a.value < bval then a.max - a.min + (a.value - bval)
    else a.value - bval
  (wrapped_result intermediate a.min a.max).map
    (fun v => { value := v, min := a.min, max := a.max })

/-- Helper: the wrap normalisation faults when the window is degenerate. -/
theorem wrapped_result_eq_none_of_degenerate (v mn mx : Int) (h : mx - mn = 0) :
    wrapped_result v mn mx = none := by
  simp [wrapped_result, rustRem, h]

/-- Helper: the wrap normalisation succeeds when the range is non-zero. -/
theorem wrapped_result_isSome_of_range_pos (v mn mx : Int) (h : 0 < mx - mn) :
    (wrapped_result v mn mx).isSome = true := by
  simp only [wrapped_result, rustRem]
  rw [if_neg (by omega)]
  rfl

/-- Helper: any operation built by mapping the bound-carrying constructor
over the wrap normalisation preserves the left operand's bounds. -/
theorem map_mk_min_max {o : Option Int} {mn mx : Int} {r : WrapNum}
    (h : o.map (fun v => ({ value := v, min := mn, max := mx } : WrapNum)) = some r) :
    r.min = mn ∧ r.max = mx := by
  rcases o with _ | v
  · simp at h
  · simp only [Option.map_some', Option.some.injEq] at h
    subst h
    exact ⟨rfl, rfl⟩

/-- C1: the claim asserts scalar addition always lands on the Euclidean
residue `(value + s - min) emod range + min` inside `[min, min + range)`.
The code uses Rust's truncating `%`: on the valid signed WrapNum
`{value 0, min 0, max 10}` plus scalar `-3` it returns value `-3`, outside
the window, whereas the Euclidean residue is `7`. -/
theorem addScalar_truncating_rem_escapes_window :
    addScalar { value := 0, min := 0, max := 10 } (-3)
      = some { value := -3, min := 0, max := 10 }
    ∧ Int.emod (0 + (-3) - 0) (10 - 0) + 0 = 7
    ∧ ¬ ((0 : Int) ≤ -3 ∧ (-3 : Int) < 0 + (10 - 0)) := by
  decide

/-- C2: subtraction (WrapNum or scalar subtrahend, including in-place)
first pre-compensates a single backward wrap when `a.value < b`, then
applies the wrap normalisation with `a`'s bounds, exactly as the spec
describes; and on the window `[0, 50)` the value `0` minus scalar `1`
yields `49`. -/
theorem sub_two_step_matches_spec :
    (∀ a b : WrapNum, subW a b = specSubStep a b.value)
    ∧ (∀ (a : WrapNum) (s : Int), subScalar a s = specSubStep a s)
    ∧ (∀ (a : WrapNum) (s : Int), sub_assign a s = specSubStep a s)
    ∧ subScalar { value := 0, min := 0, max := 50 } 1
        = some { value := 49, min := 0, max := 50 } := by
  refine ⟨fun a b => rfl, fun a s => rfl, fun a s => rfl, by decide⟩

/-- C3: the claim asserts every arithmetic operation re-normalises into
`[min, min + range)`. On the valid signed WrapNum `{value 0, min 0, max 50}`
minus scalar `101`, the code returns value `-1`, outside the window. -/
theorem subScalar_result_outside_window :
    subScalar { value := 0, min := 0, max := 50 } 101
      = some { value := -1, min := 0, max := 50 }
    ∧ ¬ ((0 : Int) ≤ -1 ∧ (-1 : Int) < 0 + (50 - 0)) := by
  decide

/-- C4: `new_min_max` succeeds, returning exactly the given fields, iff
`min ≤ value ≤ max`, and fails iff `value > max` or `value < min`;
`new_max` succeeds with `min = 0` iff `value ≤ max` and fails iff
`value > max`. -/
theorem constructors_range_checked :
    (∀ v mn mx : Int,
      (new_min_max v mn mx = some { value := v, min := mn, max := mx }
        ↔ (mn ≤ v ∧ v ≤ mx))
      ∧ (new_min_max v mn mx = none ↔ (v > mx ∨ v < mn)))
    ∧ (∀ v mx : Int,
      (new_max v mx = some { value := v, min := 0, max := mx } ↔ v ≤ mx)
      ∧ (new_max v mx = none ↔ v > mx)) := by
  constructor
  · intro v mn mx
    unfold new_min_max
    split_ifs with h1 h2 <;> simp <;> omega
  · intro v mx
    unfold new_max
    split_ifs with h1 <;> simp <;> omega

/-- C5: with a degenerate window `min = max` every arithmetic operation
faults with a remainder by zero (`none`), there being no guard on the
range; conversely, with `max - min > 0` the wrap normalisation never
faults. -/
theorem degenerate_window_faults :
    (∀ a b : WrapNum, a.min = a.max →
      addW a b = none ∧ subW a b = none)
    ∧ (∀ (a : WrapNum) (s : Int), a.min = a.max →
      addScalar a s = none ∧ subScalar a s = none
      ∧ add_assign a s = none ∧ sub_assign a s = none)
    ∧ (∀ v mn mx : Int, 0 < mx - mn →
      (wrapped_result v mn mx).isSome = true) := by
  refine ⟨fun a b h => ?_, fun a s h => ?_, fun v mn mx h => ?_⟩
  · have hz : a.max - a.min = 0 := by omega
    constructor <;>
      simp [addW, subW, wrapped_result_eq_none_of_degenerate _ _ _ hz]
  · have hz : a.max - a.min = 0 := by omega
    refine ⟨?_, ?_, ?_, ?_⟩ <;>
      simp [addScalar, subScalar, add_assign, sub_assign,
        wrapped_result_eq_none_of_degenerate _ _ _ hz]
  · exact wrapped_result_isSome_of_range_pos v mn mx h

/-- Witness for C5 at a concrete degenerate and a concrete positive
window. -/
theorem degenerate_window_faults_witness :
    addW { value := 2, min := 2, max := 2 } { value := 0, min := 0, max := 5 } = none
    ∧ (wrapped_result 3 0 5).isSome = true :=
  ⟨(degenerate_window_faults.1 _ _ rfl).1,
    degenerate_window_faults.2.2 3 0 5 (by decide)⟩

/-- C6: no arithmetic operation changes `min` or `max`: every result that
is produced carries the left operand's bounds unchanged, the right
operand's bounds being ignored. -/
theorem arithmetic_preserves_bounds :
    (∀ a b r : WrapNum, addW a b = some r → r.min = a.min ∧ r.max = a.max)
    ∧ (∀ a b r : WrapNum, subW a b = some r → r.min = a.min ∧ r.max = a.max)
    ∧ (∀ (a : WrapNum) (s : Int) (r : WrapNum),
        addScalar a s = some r → r.min = a.min ∧ r.max = a.max)
    ∧ (∀ (a : WrapNum) (s : Int) (r : WrapNum),
        subScalar a s = some r → r.min = a.min ∧ r.max = a.max)
    ∧ (∀ (a : WrapNum) (s : Int) (r : WrapNum),
        add_assign a s = some r → r.min = a.min ∧ r.max = a.max)
    ∧ (∀ (a : WrapNum) (s : Int) (r : WrapNum),
        sub_assign a s = some r → r.min = a.min ∧ r.max = a.max) := by
  refine ⟨fun a b r h => ?_, fun a b r h => ?_, fun a s r h => ?_,
    fun a s r h => ?_, fun a s r h => ?_, fun a s r h => ?_⟩
  · exact map_mk_min_max h
  · exact map_mk_min_max h
  · exact map_mk_min_max h
  · exact map_mk_min_max h
  · exact map_mk_min_max h
  · exact map_mk_min_max h

/-- Witness for C6 at a concrete addition. -/
theorem arithmetic_preserves_bounds_witness :
    ({ value := 3, min := 0, max := 5 } : WrapNum).min
        = ({ value := 1, min := 0, max := 5 } : WrapNum).min
    ∧ ({ value := 3, min := 0, max := 5 } : WrapNum).max
        = ({ value := 1, min := 0, max := 5 } : WrapNum).max :=
  arithmetic_preserves_bounds.1
    { value := 1, min := 0, max := 5 } { value := 2, min := 0, max := 7 }
    { value := 3, min := 0, max := 5 } (by decide)

/-- C7: default equality compares only `value`, `total_eq` compares all
three fields; two instances with equal value but different bounds are
equal under the former and unequal under the latter. -/
theorem equality_value_only_vs_total :
    (∀ a b : WrapNum, wrapEq a b = true ↔ a.value = b.value)
    ∧ (∀ a b : WrapNum, total_eq a b = true
        ↔ (a.value = b.value ∧ a.min = b.min ∧ a.max = b.max))
    ∧ wrapEq { value := 3, min := 0, max := 10 } { value := 3, min := 0, max := 20 } = true
    ∧ total_eq { value := 3, min := 0, max := 10 } { value := 3, min := 0, max := 20 } = false := by
  refine ⟨fun a b => ?_, fun a b => ?_, by decide, by decide⟩
  · simp [wrapEq]
  · simp [total_eq, and_assoc]

/-- C8: for every bare value, converting to a WrapNum via `from` and back
yields the original value, and the intermediate WrapNum has `min = 0` and
`max` equal to the type's maximum representable value. -/
theorem from_into_round_trip :
    ∀ maxValue v : Int,
      intoBare (fromBare maxValue v) = v
      ∧ (fromBare maxValue v).min = 0
      ∧ (fromBare maxValue v).max = maxValue :=
  fun _ _ => ⟨rfl, rfl, rfl⟩

/-- C9: indexing with a WrapNum reads the element at position `value`
(converted to the native index type); a value not representable as an
index (negative) is a hard conversion error, never a truncation; and
indexing `[10,9,8,7,6,5,4,3,2,1]` with `new 5` (value 0) yields `10`. -/
theorem index_by_wrapnum :
    (∀ (xs : List Int) (w : WrapNum), 0 ≤ w.value →
      indexWrap xs w = xs.get? w.value.toNat)
    ∧ (∀ (xs : List Int) (w : WrapNum), w.value < 0 → indexWrap xs w = none)
    ∧ indexWrap [10, 9, 8, 7, 6, 5, 4, 3, 2, 1] (new 5) = some 10 := by
  refine ⟨fun xs w h => ?_, fun xs w h => ?_, by decide⟩
  · simp only [indexWrap, toUsizeOpt, if_pos h]
    rfl
  · simp only [indexWrap, toUsizeOpt, if_neg (by omega : ¬ 0 ≤ w.value)]
    rfl

/-- Witness for C9 at a concrete in-range and a concrete negative index. -/
theorem index_by_wrapnum_witness :
    indexWrap [7, 8] { value := 1, min := 0, max := 3 }
      = ([7, 8] : List Int).get? ((1 : Int)).toNat
    ∧ indexWrap [7, 8] { value := -1, min := -5, max := 3 } = none :=
  ⟨index_by_wrapnum.1 [7, 8] { value := 1, min := 0, max := 3 } (by decide),
    index_by_wrapnum.2.1 [7, 8] { value := -1, min := -5, max := 3 } (by decide)⟩

/-- C10: `new(max)` performs no range check and never fails: for every
`max` it returns value 0, min 0 and the given max; with a negative max the
result already violates `min ≤ value ≤ max`. -/
theorem new_is_unchecked :
    (∀ mx : Int, (new mx).value = 0 ∧ (new mx).min = 0 ∧ (new mx).max = mx)
    ∧ ¬ ((new (-1)).min ≤ (new (-1)).value ∧ (new (-1)).value ≤ (new (-1)).max) := by
  refine ⟨fun mx => ⟨rfl, rfl, rfl⟩, by decide⟩

end WrapnumModel
